import Mathlib

/-
Verification of the audit-snitch event pipeline core (src/audit/mod.rs):
record model, key/value field extraction, program-run flattening, and the
length-prefixed wire dispatch protocol.  Rust machine integers are modelled
as Nat/Int with explicit range checks where the source performs them.
-/

set_option maxRecDepth 4000

namespace Snitch

/-- Architecture tag of a SYSCALL record (`pub enum SyscallArch`). -/
inductive SyscallArch
  | Unknown
  | I386
  | Amd64
deriving DecidableEq, Repr

/-- One kernel audit SYSCALL line (`pub struct SyscallRecord`).
`id` is u64, timestamps are i64, credential fields are i32 (modelled as
Int), and the optional free-text fields are `Option String`.  The
`inserted_timestamp : SystemTime` is modelled as a Nat; it is never read
by the operations verified here. -/
structure SyscallRecord where
  id : Nat
  timestamp : Int
  timestamp_frac : Int
  inserted_timestamp : Nat
  arch : SyscallArch
  syscall : Int
  success : Bool
  exit : Int
  pid : Int
  ppid : Int
  uid : Int
  gid : Int
  auid : Int
  euid : Int
  egid : Int
  suid : Int
  sgid : Int
  fsuid : Int
  fsgid : Int
  tty : Option String
  comm : Option String
  exe : Option String
  key : Option String
  subj : Option String
deriving DecidableEq, Repr

/-- One kernel audit EXECVE line (`pub struct ExecveRecord`). -/
structure ExecveRecord where
  id : Nat
  timestamp : Int
  timestamp_frac : Int
  inserted_timestamp : Nat
  args : List String
deriving DecidableEq, Repr

/-- Modelled from the spec: the initial SyscallRecord built by the external
line parsers (src/audit/auparse.rs and src/audit/aubin.rs are not part of
the provided sources).  Per the spec, numeric fields default to -1 when the
source field is absent, `success` is true only for an explicit "yes",
`arch` defaults to Unknown, and optional free-text fields are absent. -/
def SyscallRecord.new : SyscallRecord where
  id := 0
  timestamp := 0
  timestamp_frac := 0
  inserted_timestamp := 0
  arch := SyscallArch.Unknown
  syscall := -1
  success := false
  exit := -1
  pid := -1
  ppid := -1
  uid := -1
  gid := -1
  auid := -1
  euid := -1
  egid := -1
  suid := -1
  sgid := -1
  fsuid := -1
  fsgid := -1
  tty := none
  comm := none
  exe := none
  key := none
  subj := none

/-- Value of a hexadecimal digit character, as accepted by Rust's
`char::to_digit(16)`. -/
def hexDigitVal (c : Char) : Option Nat :=
  if '0' ≤ c ∧ c ≤ '9' then some (c.toNat - '0'.toNat)
  else if 'a' ≤ c ∧ c ≤ 'f' then some (c.toNat - 'a'.toNat + 10)
  else if 'A' ≤ c ∧ c ≤ 'F' then some (c.toNat - 'A'.toNat + 10)
  else none

/-- Value of a decimal digit character, as accepted by Rust's
`char::to_digit(10)`. -/
def decDigitVal (c : Char) : Option Nat :=
  if '0' ≤ c ∧ c ≤ '9' then some (c.toNat - '0'.toNat) else none

/-- Accumulate base-16 digits with the u32 overflow check that Rust's
`u32::from_str_radix` performs at every step (checked mul/add). -/
def parseHexU32 : List Char → Nat → Option Nat
  | [], acc => some acc
  | c :: cs, acc =>
    match hexDigitVal c with
    | some d => if acc * 16 + d < 2 ^ 32 then parseHexU32 cs (acc * 16 + d) else none
    | none => none

/-- Rust `u32::from_str_radix(s, 16)`: optional leading '+', at least one
hex digit, value below 2^32; a '-' sign or any non-digit fails. -/
def u32_from_str_radix_16 (s : String) : Option Nat :=
  match s.data with
  | [] => none
  | '+' :: rest =>
    match rest with
    | [] => none
    | _ => parseHexU32 rest 0
  | cs => parseHexU32 cs 0

/-- Accumulate base-10 digits into an unbounded Nat (the i32 range check is
applied afterwards; since the accumulated value only grows, this agrees
with Rust's stepwise checked arithmetic). -/
def parseDecNat : List Char → Nat → Option Nat
  | [], acc => some acc
  | c :: cs, acc =>
    match decDigitVal c with
    | some d => parseDecNat cs (acc * 10 + d)
    | none => none

/-- Rust `i32::from_str_radix(s, 10)`: optional leading '+' or '-', at
least one decimal digit, and the signed value must fit in i32. -/
def i32_from_str_radix_10 (s : String) : Option Int :=
  match s.data with
  | [] => none
  | '+' :: rest =>
    match rest with
    | [] => none
    | _ =>
      match parseDecNat rest 0 with
      | some n => if n ≤ 2 ^ 31 - 1 then some ((n : Int)) else none
      | none => none
  | '-' :: rest =>
    match rest with
    | [] => none
    | _ =>
      match parseDecNat rest 0 with
      | some n => if n ≤ 2 ^ 31 then some (-(n : Int)) else none
      | none => none
  | cs =>
    match parseDecNat cs 0 with
    | some n => if n ≤ 2 ^ 31 - 1 then some ((n : Int)) else none
    | none => none

/-- `fn parse_i32_default`: parse base-10, fall back to the default. -/
def parse_i32_default (txt : String) (d : Int) : Int :=
  match i32_from_str_radix_10 txt with
  | some i => i
  | none => d

/-- `const EM_386: u32 = 3` (from linux/elf-em.h). -/
def EM_386 : Nat := 3

/-- `const EM_X86_64: u32 = 62` (from linux/elf-em.h). -/
def EM_X86_64 : Nat := 62

/-- `fn syscall_extract_fields`: apply one `key=value` token to a
SyscallRecord.  The "(null)" sentinel returns the record unchanged before
any key is examined; the arch test uses the source's bitwise-AND checks
against EM_386 and EM_X86_64, in that order. -/
def syscall_extract_fields (rec : SyscallRecord) (key value : String) : SyscallRecord :=
  if value = "(null)" then rec
  else
    match key with
    | "arch" =>
      { rec with arch :=
          match u32_from_str_radix_16 value with
          | some arch =>
            if arch &&& EM_386 ≠ 0 then SyscallArch.I386
            else if arch &&& EM_X86_64 ≠ 0 then SyscallArch.Amd64
            else SyscallArch.Unknown
          | none => SyscallArch.Unknown }
    | "syscall" => { rec with syscall := parse_i32_default value (-1) }
    | "success" => { rec with success := value = "yes" }
    | "exit" => { rec with exit := parse_i32_default value (-1) }
    | "pid" => { rec with pid := parse_i32_default value (-1) }
    | "ppid" => { rec with ppid := parse_i32_default value (-1) }
    | "uid" => { rec with uid := parse_i32_default value (-1) }
    | "gid" => { rec with gid := parse_i32_default value (-1) }
    | "auid" => { rec with auid := parse_i32_default value (-1) }
    | "euid" => { rec with euid := parse_i32_default value (-1) }
    | "egid" => { rec with egid := parse_i32_default value (-1) }
    | "suid" => { rec with suid := parse_i32_default value (-1) }
    | "sgid" => { rec with sgid := parse_i32_default value (-1) }
    | "fsuid" => { rec with fsuid := parse_i32_default value (-1) }
    | "fsgid" => { rec with fsgid := parse_i32_default value (-1) }
    | "tty" => { rec with tty := some value }
    | "comm" => { rec with comm := some value }
    | "exe" => { rec with exe := some value }
    | "key" => { rec with key := some value }
    | "subj" => { rec with subj := some value }
    | _ => rec

/-- The thirteen recognized numeric keys of a SYSCALL line. -/
def numericKeys : List String :=
  ["syscall", "exit", "pid", "ppid", "uid", "gid", "auid", "euid", "egid",
   "suid", "sgid", "fsuid", "fsgid"]

/-- Every key `syscall_extract_fields` recognizes. -/
def recognizedKeys : List String :=
  ["arch", "syscall", "success", "exit", "pid", "ppid", "uid", "gid", "auid",
   "euid", "egid", "suid", "sgid", "fsuid", "fsgid", "tty", "comm", "exe",
   "key", "subj"]

/-- Select the numeric field of a record named by a numeric key. -/
def numericField (rec : SyscallRecord) (key : String) : Int :=
  match key with
  | "syscall" => rec.syscall
  | "exit" => rec.exit
  | "pid" => rec.pid
  | "ppid" => rec.ppid
  | "uid" => rec.uid
  | "gid" => rec.gid
  | "auid" => rec.auid
  | "euid" => rec.euid
  | "egid" => rec.egid
  | "suid" => rec.suid
  | "sgid" => rec.sgid
  | "fsuid" => rec.fsuid
  | "fsgid" => rec.fsgid
  | _ => 0

/-- `REPORT_TYPE_ERROR` from audit.proto. -/
def REPORT_TYPE_ERROR : Int := 0

/-- `REPORT_TYPE_PROGRAMRUN` from audit.proto. -/
def REPORT_TYPE_PROGRAMRUN : Int := 1

/-- `REPORT_TYPE_KEEPALIVE` from audit.proto. -/
def REPORT_TYPE_KEEPALIVE : Int := 2

/-- Modelled from the spec: the wire Timestamp structure
(`SnitchTimestamp` in the generated protobuf module src/audit/protos,
which is not part of the provided sources): signed 64-bit seconds and
sub-second fraction. -/
structure SnitchTimestamp where
  timestamp : Int
  timestamp_frac : Int
deriving DecidableEq, Repr

/-- Modelled from the spec: the KeepAlive wire payload, a single
timestamp. -/
structure KeepAlive where
  timestamp : SnitchTimestamp
deriving DecidableEq, Repr

/-- Modelled from the spec: the ProgramRun wire payload of §6.  Its fields
are exactly the ones listed there — in particular it has `tty`, `comm`,
`exe`, `key` optional strings but no `subj` field.  A fresh message
(`ProgramRun::new()`) has zero/absent defaults. -/
structure ProgramRun where
  timestamp : SnitchTimestamp
  arch : String
  syscall : Int
  success : Bool
  exit : Int
  pid : Int
  ppid : Int
  uid : Int
  gid : Int
  auid : Int
  euid : Int
  egid : Int
  suid : Int
  sgid : Int
  fsuid : Int
  fsgid : Int
  tty : Option String
  comm : Option String
  exe : Option String
  key : Option String
  args : List String
deriving DecidableEq, Repr

/-- `ProgramRun::new()`. -/
def ProgramRun.new : ProgramRun where
  timestamp := ⟨0, 0⟩
  arch := ""
  syscall := 0
  success := false
  exit := 0
  pid := 0
  ppid := 0
  uid := 0
  gid := 0
  auid := 0
  euid := 0
  egid := 0
  suid := 0
  sgid := 0
  fsuid := 0
  fsgid := 0
  tty := none
  comm := none
  exe := none
  key := none
  args := []

/-- Modelled from the spec: the envelope (`SnitchReport`): a
`message_type` discriminator and an opaque byte payload. -/
structure SnitchReport where
  message_type : Int
  payload : List Nat
deriving DecidableEq, Repr

/-- A protobuf serializer for a message type: the bytes `Message::write_to`
would produce, or a serialization failure (carrying the error's
description).  The concrete encodings live in the protobuf library and the
generated src/audit/protos module, which are outside the provided sources,
so dispatch is verified for every serializer. -/
def Encoder (α : Type) : Type := α → Except String (List Nat)

/-- Rust `std::time::Duration`: seconds and sub-second nanoseconds.
`Duration::from_millis(0)` is `⟨0, 0⟩`. -/
structure Duration where
  secs : Nat
  nanos : Nat
deriving DecidableEq, Repr

/-- The `as i64` cast applied to `Duration::as_secs()` (a u64). -/
def u64_as_i64 (n : Nat) : Int :=
  if n % 2 ^ 64 < 2 ^ 63 then ((n % 2 ^ 64 : Nat) : Int)
  else ((n % 2 ^ 64 : Nat) : Int) - 2 ^ 64

/-- One operation performed on the output stream (`T: Write`): a
`write_all` of some bytes, or an explicit `flush`. -/
inductive StreamOp
  | writeBytes (bytes : List Nat)
  | flush
deriving DecidableEq, Repr

/-- The output sink handed to the dispatchers: the operations it has
received so far, and an optional count of further operations it will
accept before its `write` starts failing (none = never fails). -/
structure OutStream where
  written : List StreamOp
  failAfter : Option Nat
deriving DecidableEq, Repr

/-- An `io::Error`: its `ErrorKind` and description. -/
inductive IoErrorKind
  | Interrupted
  | Other
deriving DecidableEq, Repr

/-- An `io::Error` value. -/
structure IoError where
  kind : IoErrorKind
  msg : String
deriving DecidableEq, Repr

/-- Perform one operation on the output stream: an `io::Result`. -/
def stream_op (s : OutStream) (op : StreamOp) : Except IoError OutStream :=
  match s.failAfter with
  | some 0 => Except.error ⟨IoErrorKind.Other, "stream write failed"⟩
  | some (n + 1) => Except.ok ⟨s.written ++ [op], some n⟩
  | none => Except.ok ⟨s.written ++ [op], none⟩

/-- `fn write_pb_and_flush`: serialize `msg` through a vec-backed
`CodedOutputStream` and flush it into the vec; either failure is converted
to an `io::Error` with kind `Interrupted` carrying the error's
description. -/
def write_pb_and_flush {α : Type} (enc : Encoder α) (msg : α) (vec : List Nat) :
    Except IoError (List Nat) :=
  match enc msg with
  | Except.ok bytes => Except.ok (vec ++ bytes)
  | Except.error e => Except.error ⟨IoErrorKind.Interrupted, e⟩

/-- The 4 big-endian bytes `byteorder::NetworkEndian` writes for a u32. -/
def u32_be (n : Nat) : List Nat :=
  [n / 2 ^ 24 % 256, n / 2 ^ 16 % 256, n / 2 ^ 8 % 256, n % 256]

/-- The final two stream writes shared by both dispatchers:
`stream.write_u32::<NetworkEndian>(full_message.len() as u32)?` followed by
`stream.write_all(&full_message)`. -/
def write_frame (stream : OutStream) (full_message : List Nat) : Except IoError OutStream :=
  match stream_op stream (StreamOp.writeBytes (u32_be (full_message.length % 2 ^ 32))) with
  | Except.error e => Except.error e
  | Except.ok stream2 => stream_op stream2 (StreamOp.writeBytes full_message)

/-- The keepalive message built by `dispatch_keepalive`: current wall
clock as seconds/nanoseconds since the epoch, with `Duration::from_millis(0)`
substituted when `SystemTime::now().duration_since(UNIX_EPOCH)` fails
(clock before the epoch, modelled as `none`). -/
def keepalive_message (clock : Option Duration) : KeepAlive :=
  let now_ts : Duration :=
    match clock with
    | some ts => ts
    | none => ⟨0, 0⟩
  ⟨⟨u64_as_i64 now_ts.secs, (now_ts.nanos : Int)⟩⟩

/-- `fn dispatch_keepalive`: build the keepalive, serialize it into the
envelope payload, serialize the envelope, then write the payload length as
a big-endian u32 (`len() as u32`) followed by the payload bytes.  The
output stream itself is never flushed. -/
def dispatch_keepalive (encKA : Encoder KeepAlive) (encMsg : Encoder SnitchReport)
    (clock : Option Duration) (stream : OutStream) : Except IoError OutStream :=
  let keepalive := keepalive_message clock
  match write_pb_and_flush encKA keepalive [] with
  | Except.error e => Except.error e
  | Except.ok payload =>
    match write_pb_and_flush encMsg ⟨REPORT_TYPE_KEEPALIVE, payload⟩ [] with
    | Except.error e => Except.error e
    | Except.ok full_message => write_frame stream full_message

/-- The ProgramRun record built inside `fn dispatch_audit_event` (lines
200-253): timestamp and every scalar field from the syscall half, the
optional text fields applied in source order (tty, comm, exe, key, then
subj — which the source feeds to `set_tty`), and the args pushed in order
from the execve half.  `set_suid` receives `syscall.sgid` exactly as the
source does. -/
def build_program_run (syscall : SyscallRecord) (execve : ExecveRecord) : ProgramRun :=
  let progrec : ProgramRun :=
    { ProgramRun.new with
      timestamp := ⟨syscall.timestamp, syscall.timestamp_frac⟩
      arch :=
        match syscall.arch with
        | SyscallArch.Unknown => "Unknown"
        | SyscallArch.I386 => "i386"
        | SyscallArch.Amd64 => "amd64"
      syscall := syscall.syscall
      success := syscall.success
      exit := syscall.exit
      pid := syscall.pid
      ppid := syscall.ppid
      uid := syscall.uid
      gid := syscall.gid
      auid := syscall.auid
      euid := syscall.euid
      egid := syscall.egid
      suid := syscall.sgid
      sgid := syscall.sgid
      fsuid := syscall.fsuid
      fsgid := syscall.fsgid }
  let progrec :=
    match syscall.tty with
    | some tty => { progrec with tty := some tty }
    | none => progrec
  let progrec :=
    match syscall.comm with
    | some comm => { progrec with comm := some comm }
    | none => progrec
  let progrec :=
    match syscall.exe with
    | some exe => { progrec with exe := some exe }
    | none => progrec
  let progrec :=
    match syscall.key with
    | some key => { progrec with key := some key }
    | none => progrec
  let progrec :=
    match syscall.subj with
    | some subj => { progrec with tty := some subj }
    | none => progrec
  { progrec with args := execve.args }

/-- `fn dispatch_audit_event`: flatten the correlated pair into a
ProgramRun, serialize it into the envelope payload, serialize the
envelope, then write the length header and the payload bytes. -/
def dispatch_audit_event (encPR : Encoder ProgramRun) (encMsg : Encoder SnitchReport)
    (syscall : SyscallRecord) (execve : ExecveRecord) (stream : OutStream) :
    Except IoError OutStream :=
  let progrec := build_program_run syscall execve
  match write_pb_and_flush encPR progrec [] with
  | Except.error e => Except.error e
  | Except.ok payload =>
    match write_pb_and_flush encMsg ⟨REPORT_TYPE_PROGRAMRUN, payload⟩ [] with
    | Except.error e => Except.error e
    | Except.ok full_message => write_frame stream full_message

/-- Read 4 bytes as a big-endian u32, returning it and the remainder. -/
def read_u32_be (bs : List Nat) : Option (Nat × List Nat) :=
  match bs with
  | b0 :: b1 :: b2 :: b3 :: rest => some (((b0 * 256 + b1) * 256 + b2) * 256 + b3, rest)
  | _ => none

/-- The remote reader's view of one frame: read the 4-byte length header,
then take exactly that many payload bytes, returning the payload and the
remainder of the byte stream. -/
def read_frame (bs : List Nat) : Option (List Nat × List Nat) :=
  match read_u32_be bs with
  | some (n, rest) => if n ≤ rest.length then some (rest.take n, rest.drop n) else none
  | none => none

/-- The syscall record used as the concrete failing input for the
credential-field copy claim: suid and sgid differ. -/
def c3_syscall : SyscallRecord :=
  { SyscallRecord.new with
    pid := 10, ppid := 11, uid := 12, gid := 13, auid := 14, euid := 15,
    egid := 16, suid := 5, sgid := 7, fsuid := 18, fsgid := 19 }

/-- The execve record paired with `c3_syscall`. -/
def c3_execve : ExecveRecord := ⟨1, 0, 0, 0, ["/bin/ls", "-l"]⟩

/- ------------------------------------------------------------------ -/
/- Helper lemmas                                                      -/
/- ------------------------------------------------------------------ -/

/-- The "(null)" sentinel short-circuits `syscall_extract_fields` before
any key is examined. -/
theorem extract_null_eq (rec : SyscallRecord) (key : String) :
    syscall_extract_fields rec key "(null)" = rec := by
  simp [syscall_extract_fields]

/-- A recognized numeric key whose value fails base-10 i32 parsing and is
not the sentinel sets exactly that field to -1. -/
theorem extract_numeric_invalid (rec : SyscallRecord) (k v : String)
    (hk : k ∈ numericKeys) (hv : i32_from_str_radix_10 v = none)
    (hnull : v ≠ "(null)") :
    numericField (syscall_extract_fields rec k v) k = -1 := by
  simp only [numericKeys, List.mem_cons, List.not_mem_nil, or_false] at hk
  rcases hk with rfl | rfl | rfl | rfl | rfl | rfl | rfl | rfl | rfl | rfl | rfl | rfl | rfl <;>
    simp [syscall_extract_fields, hnull, parse_i32_default, hv, numericField]

/-- On the fresh record every numeric field is already -1, so a recognized
numeric key with an unparsable value (sentinel included) always leaves the
field at -1. -/
theorem extract_numeric_invalid_new (k v : String)
    (hk : k ∈ numericKeys) (hv : i32_from_str_radix_10 v = none) :
    numericField (syscall_extract_fields SyscallRecord.new k v) k = -1 := by
  by_cases hnull : v = "(null)"
  · subst hnull
    rw [extract_null_eq]
    simp only [numericKeys, List.mem_cons, List.not_mem_nil, or_false] at hk
    rcases hk with rfl | rfl | rfl | rfl | rfl | rfl | rfl | rfl | rfl | rfl | rfl | rfl | rfl <;>
      rfl
  · exact extract_numeric_invalid SyscallRecord.new k v hk hv hnull

/-- A key outside the recognized set leaves the record untouched. -/
theorem extract_unknown_key (rec : SyscallRecord) (k v : String)
    (hk : k ∉ recognizedKeys) :
    syscall_extract_fields rec k v = rec := by
  by_cases hnull : v = "(null)"
  · subst hnull; exact extract_null_eq rec k
  · simp only [recognizedKeys, List.mem_cons, List.not_mem_nil, or_false, not_or] at hk
    simp only [syscall_extract_fields, if_neg hnull]
    split <;> simp_all

/-- Reading back the 4 big-endian bytes of a u32 below 2^32 recovers it. -/
theorem read_u32_be_of_u32_be (n : Nat) (h : n < 2 ^ 32) (tail : List Nat) :
    read_u32_be (u32_be n ++ tail) = some (n, tail) := by
  simp only [u32_be, List.cons_append, List.nil_append, read_u32_be,
    Option.some.injEq, Prod.mk.injEq, and_true]
  omega

/-- Reading a frame whose header carries the exact payload length yields
the payload and the untouched remainder of the stream. -/
theorem read_frame_round_trip (payload rest : List Nat) (h : payload.length < 2 ^ 32) :
    read_frame (u32_be payload.length ++ (payload ++ rest)) = some (payload, rest) := by
  simp only [read_frame, read_u32_be_of_u32_be payload.length h (payload ++ rest)]
  rw [if_pos (by simp)]
  rw [List.take_left, List.drop_left]

/-- Success shape of `dispatch_keepalive`: when both serializations succeed
and the stream accepts the writes, the stream receives exactly the length
header followed by the envelope bytes, and nothing else. -/
theorem dispatch_keepalive_ok (encKA : Encoder KeepAlive) (encMsg : Encoder SnitchReport)
    (clock : Option Duration) (s : OutStream) (kaBytes fm : List Nat)
    (hs : s.failAfter = none)
    (h1 : encKA (keepalive_message clock) = Except.ok kaBytes)
    (h2 : encMsg ⟨REPORT_TYPE_KEEPALIVE, kaBytes⟩ = Except.ok fm) :
    dispatch_keepalive encKA encMsg clock s =
      Except.ok ⟨s.written ++
        [StreamOp.writeBytes (u32_be (fm.length % 2 ^ 32)), StreamOp.writeBytes fm], none⟩ := by
  simp [dispatch_keepalive, write_pb_and_flush, h1, h2, write_frame, stream_op, hs]

/-- Success shape of `dispatch_audit_event`, analogous to
`dispatch_keepalive_ok`. -/
theorem dispatch_audit_event_ok (encPR : Encoder ProgramRun) (encMsg : Encoder SnitchReport)
    (sys : SyscallRecord) (ex : ExecveRecord) (s : OutStream) (prBytes fm : List Nat)
    (hs : s.failAfter = none)
    (h1 : encPR (build_program_run sys ex) = Except.ok prBytes)
    (h2 : encMsg ⟨REPORT_TYPE_PROGRAMRUN, prBytes⟩ = Except.ok fm) :
    dispatch_audit_event encPR encMsg sys ex s =
      Except.ok ⟨s.written ++
        [StreamOp.writeBytes (u32_be (fm.length % 2 ^ 32)), StreamOp.writeBytes fm], none⟩ := by
  simp [dispatch_audit_event, write_pb_and_flush, h1, h2, write_frame, stream_op, hs]

/-- Whenever `write_frame` succeeds — whatever the stream's failure budget
was — the stream received exactly the length header and the payload, in
that order, and no other operation (in particular, no flush). -/
theorem write_frame_shape (s s' : OutStream) (full : List Nat)
    (h : write_frame s full = Except.ok s') :
    s'.written = s.written ++
      [StreamOp.writeBytes (u32_be (full.length % 2 ^ 32)), StreamOp.writeBytes full] := by
  rcases s with ⟨w, fa⟩
  rcases fa with _ | n
  · simp [write_frame, stream_op] at h
    subst h
    simp
  · rcases n with _ | n
    · simp [write_frame, stream_op] at h
    · rcases n with _ | n
      · simp [write_frame, stream_op] at h
      · simp [write_frame, stream_op] at h
        subst h
        simp

/-- A stream whose very next write fails makes `write_frame` fail. -/
theorem write_frame_fail_now (s : OutStream) (full : List Nat)
    (hs : s.failAfter = some 0) :
    write_frame s full = Except.error ⟨IoErrorKind.Other, "stream write failed"⟩ := by
  simp [write_frame, stream_op, hs]

/-- `dispatch_keepalive` when the payload serialization fails. -/
theorem dispatch_keepalive_enc1_err (encKA : Encoder KeepAlive)
    (encMsg : Encoder SnitchReport) (clock : Option Duration) (s : OutStream) (e : String)
    (h1 : encKA (keepalive_message clock) = Except.error e) :
    dispatch_keepalive encKA encMsg clock s = Except.error ⟨IoErrorKind.Interrupted, e⟩ := by
  simp [dispatch_keepalive, write_pb_and_flush, h1]

/-- `dispatch_keepalive` when the envelope serialization fails. -/
theorem dispatch_keepalive_enc2_err (encKA : Encoder KeepAlive)
    (encMsg : Encoder SnitchReport) (clock : Option Duration) (s : OutStream)
    (kaBytes : List Nat) (e : String)
    (h1 : encKA (keepalive_message clock) = Except.ok kaBytes)
    (h2 : encMsg ⟨REPORT_TYPE_KEEPALIVE, kaBytes⟩ = Except.error e) :
    dispatch_keepalive encKA encMsg clock s = Except.error ⟨IoErrorKind.Interrupted, e⟩ := by
  simp [dispatch_keepalive, write_pb_and_flush, h1, h2]

/-- `dispatch_keepalive` once both serializations succeed is exactly the
frame write. -/
theorem dispatch_keepalive_frame (encKA : Encoder KeepAlive)
    (encMsg : Encoder SnitchReport) (clock : Option Duration) (s : OutStream)
    (kaBytes fm : List Nat)
    (h1 : encKA (keepalive_message clock) = Except.ok kaBytes)
    (h2 : encMsg ⟨REPORT_TYPE_KEEPALIVE, kaBytes⟩ = Except.ok fm) :
    dispatch_keepalive encKA encMsg clock s = write_frame s fm := by
  simp [dispatch_keepalive, write_pb_and_flush, h1, h2]

/-- `dispatch_audit_event` when the payload serialization fails. -/
theorem dispatch_audit_event_enc1_err (encPR : Encoder ProgramRun)
    (encMsg : Encoder SnitchReport) (sys : SyscallRecord) (ex : ExecveRecord)
    (s : OutStream) (e : String)
    (h1 : encPR (build_program_run sys ex) = Except.error e) :
    dispatch_audit_event encPR encMsg sys ex s =
      Except.error ⟨IoErrorKind.Interrupted, e⟩ := by
  simp [dispatch_audit_event, write_pb_and_flush, h1]

/-- `dispatch_audit_event` when the envelope serialization fails. -/
theorem dispatch_audit_event_enc2_err (encPR : Encoder ProgramRun)
    (encMsg : Encoder SnitchReport) (sys : SyscallRecord) (ex : ExecveRecord)
    (s : OutStream) (prBytes : List Nat) (e : String)
    (h1 : encPR (build_program_run sys ex) = Except.ok prBytes)
    (h2 : encMsg ⟨REPORT_TYPE_PROGRAMRUN, prBytes⟩ = Except.error e) :
    dispatch_audit_event encPR encMsg sys ex s =
      Except.error ⟨IoErrorKind.Interrupted, e⟩ := by
  simp [dispatch_audit_event, write_pb_and_flush, h1, h2]

/-- `dispatch_audit_event` once both serializations succeed is exactly the
frame write. -/
theorem dispatch_audit_event_frame (encPR : Encoder ProgramRun)
    (encMsg : Encoder SnitchReport) (sys : SyscallRecord) (ex : ExecveRecord)
    (s : OutStream) (prBytes fm : List Nat)
    (h1 : encPR (build_program_run sys ex) = Except.ok prBytes)
    (h2 : encMsg ⟨REPORT_TYPE_PROGRAMRUN, prBytes⟩ = Except.ok fm) :
    dispatch_audit_event encPR encMsg sys ex s = write_frame s fm := by
  simp [dispatch_audit_event, write_pb_and_flush, h1, h2]

/- ------------------------------------------------------------------ -/
/- Claim theorems                                                     -/
/- ------------------------------------------------------------------ -/

/-- C1: every frame written by dispatch_keepalive or dispatch_audit_event
consists of a 4-byte big-endian length header whose value is the exact
byte length of the serialized envelope written immediately after it, so a
reader that takes the header and then that many bytes recovers the
complete envelope and leaves the rest of the stream intact. -/
theorem dispatch_frames_exact_length_header :
    ∀ (encKA : Encoder KeepAlive) (encPR : Encoder ProgramRun)
      (encMsg : Encoder SnitchReport) (clock : Option Duration)
      (sys : SyscallRecord) (ex : ExecveRecord) (s : OutStream)
      (kaBytes fmKA prBytes fmPR rest : List Nat),
      s.failAfter = none →
      encKA (keepalive_message clock) = Except.ok kaBytes →
      encMsg ⟨REPORT_TYPE_KEEPALIVE, kaBytes⟩ = Except.ok fmKA →
      fmKA.length < 2 ^ 32 →
      encPR (build_program_run sys ex) = Except.ok prBytes →
      encMsg ⟨REPORT_TYPE_PROGRAMRUN, prBytes⟩ = Except.ok fmPR →
      fmPR.length < 2 ^ 32 →
      (dispatch_keepalive encKA encMsg clock s =
          Except.ok ⟨s.written ++
            [StreamOp.writeBytes (u32_be fmKA.length), StreamOp.writeBytes fmKA], none⟩
        ∧ read_frame (u32_be fmKA.length ++ (fmKA ++ rest)) = some (fmKA, rest))
      ∧ (dispatch_audit_event encPR encMsg sys ex s =
          Except.ok ⟨s.written ++
            [StreamOp.writeBytes (u32_be fmPR.length), StreamOp.writeBytes fmPR], none⟩
        ∧ read_frame (u32_be fmPR.length ++ (fmPR ++ rest)) = some (fmPR, rest)) := by
  intro encKA encPR encMsg clock sys ex s kaBytes fmKA prBytes fmPR rest
  intro hs h1 h2 hlenKA h3 h4 hlenPR
  refine ⟨⟨?_, read_frame_round_trip fmKA rest hlenKA⟩,
          ⟨?_, read_frame_round_trip fmPR rest hlenPR⟩⟩
  · have h := dispatch_keepalive_ok encKA encMsg clock s kaBytes fmKA hs h1 h2
    rwa [Nat.mod_eq_of_lt hlenKA] at h
  · have h := dispatch_audit_event_ok encPR encMsg sys ex s prBytes fmPR hs h3 h4
    rwa [Nat.mod_eq_of_lt hlenPR] at h

/-- C1 witness: concrete serializers, a fresh stream, and concrete frames. -/
theorem dispatch_frames_exact_length_header_witness :
    (dispatch_keepalive (fun _ => Except.ok [5]) (fun _ => Except.ok [9, 9]) none ⟨[], none⟩ =
        Except.ok ⟨[StreamOp.writeBytes (u32_be 2), StreamOp.writeBytes [9, 9]], none⟩
      ∧ read_frame (u32_be 2 ++ ([9, 9] ++ [3])) = some ([9, 9], [3]))
    ∧ (dispatch_audit_event (fun _ => Except.ok [1]) (fun _ => Except.ok [9, 9])
          SyscallRecord.new ⟨0, 0, 0, 0, []⟩ ⟨[], none⟩ =
        Except.ok ⟨[StreamOp.writeBytes (u32_be 2), StreamOp.writeBytes [9, 9]], none⟩
      ∧ read_frame (u32_be 2 ++ ([9, 9] ++ [3])) = some ([9, 9], [3])) :=
  dispatch_frames_exact_length_header (fun _ => Except.ok [5]) (fun _ => Except.ok [1])
    (fun _ => Except.ok [9, 9]) none SyscallRecord.new ⟨0, 0, 0, 0, []⟩ ⟨[], none⟩
    [5] [9, 9] [1] [9, 9] [3] rfl rfl rfl (by decide) rfl rfl (by decide)

/-- C2 (code bug evaluation): the masked arch test classifies 40000003 as
I386 as the claim states, but 8000003e decodes to I386, not Amd64, and
deadbeef decodes to I386, not Unknown, because `arch & EM_386 != 0` with
EM_386 = 3 is checked first and is nonzero for both; a non-hexadecimal
value does map to Unknown without an error. -/
theorem arch_mask_misclassifies :
    (syscall_extract_fields SyscallRecord.new "arch" "40000003").arch = SyscallArch.I386
    ∧ (syscall_extract_fields SyscallRecord.new "arch" "8000003e").arch = SyscallArch.I386
    ∧ (syscall_extract_fields SyscallRecord.new "arch" "8000003e").arch ≠ SyscallArch.Amd64
    ∧ (syscall_extract_fields SyscallRecord.new "arch" "deadbeef").arch = SyscallArch.I386
    ∧ (syscall_extract_fields SyscallRecord.new "arch" "deadbeef").arch ≠ SyscallArch.Unknown
    ∧ (syscall_extract_fields SyscallRecord.new "arch" "zz").arch = SyscallArch.Unknown := by
  decide

/-- C3 (code bug evaluation): at a pair whose syscall half has suid = 5
and sgid = 7, the flattened ProgramRun carries suid = 7 — the source's
`progrec.set_suid(syscall.sgid)` — while every other credential field
matches the same-named syscall field. -/
theorem program_run_suid_from_sgid :
    (build_program_run c3_syscall c3_execve).suid = 7
    ∧ c3_syscall.suid = 5
    ∧ (build_program_run c3_syscall c3_execve).suid ≠ c3_syscall.suid
    ∧ (build_program_run c3_syscall c3_execve).pid = c3_syscall.pid
    ∧ (build_program_run c3_syscall c3_execve).ppid = c3_syscall.ppid
    ∧ (build_program_run c3_syscall c3_execve).uid = c3_syscall.uid
    ∧ (build_program_run c3_syscall c3_execve).gid = c3_syscall.gid
    ∧ (build_program_run c3_syscall c3_execve).auid = c3_syscall.auid
    ∧ (build_program_run c3_syscall c3_execve).euid = c3_syscall.euid
    ∧ (build_program_run c3_syscall c3_execve).egid = c3_syscall.egid
    ∧ (build_program_run c3_syscall c3_execve).sgid = c3_syscall.sgid
    ∧ (build_program_run c3_syscall c3_execve).fsuid = c3_syscall.fsuid
    ∧ (build_program_run c3_syscall c3_execve).fsgid = c3_syscall.fsgid := by
  decide

/-- C4: when the syscall record's subj field is present its value is
written into the ProgramRun's tty output field, overwriting any tty value
set just before; when subj is absent the tty output is the record's own
tty.  The wire ProgramRun carries no separate subj field. -/
theorem subj_written_to_tty :
    ∀ (sys : SyscallRecord) (ex : ExecveRecord) (s : String),
      (sys.subj = some s → (build_program_run sys ex).tty = some s)
      ∧ (sys.subj = none → (build_program_run sys ex).tty = sys.tty) := by
  intro sys ex s
  constructor <;> intro h <;>
    cases htty : sys.tty <;> cases hcomm : sys.comm <;> cases hexe : sys.exe <;>
      cases hkey : sys.key <;>
    simp [build_program_run, ProgramRun.new, h, htty, hcomm, hexe, hkey]

/-- C4 witness: subj overwrites an already-set tty. -/
theorem subj_written_to_tty_witness :
    (build_program_run
      { SyscallRecord.new with tty := some "tty1", subj := some "sysadm" }
      ⟨0, 0, 0, 0, []⟩).tty = some "sysadm" :=
  (subj_written_to_tty
    { SyscallRecord.new with tty := some "tty1", subj := some "sysadm" }
    ⟨0, 0, 0, 0, []⟩ "sysadm").1 rfl

/-- C5 counterexample: a keepalive dispatch that returns success while the
output stream received only the two frame writes and no flush operation —
the dispatchers never flush their write target (the flushes in the source
apply to the vec-backed serialization streams, not to `stream`). -/
theorem keepalive_success_without_stream_flush :
    dispatch_keepalive (fun _ => Except.ok [9]) (fun _ => Except.ok [9]) (some ⟨0, 0⟩)
        ⟨[], none⟩ =
      Except.ok ⟨[StreamOp.writeBytes [0, 0, 0, 1], StreamOp.writeBytes [9]], none⟩
    ∧ StreamOp.flush ∉ [StreamOp.writeBytes [0, 0, 0, 1], StreamOp.writeBytes [9]] :=
  ⟨rfl, by decide⟩

/-- C5 (amended): on success each dispatcher appends to the output stream
exactly two byte writes (the length header and the envelope) and never a
flush; a failure at either serialization stage surfaces as an io::Error
with kind Interrupted, and a failing underlying write prevents any success
result — no failure is swallowed. -/
theorem dispatch_error_propagation_no_flush :
    ∀ (encKA : Encoder KeepAlive) (encPR : Encoder ProgramRun)
      (encMsg : Encoder SnitchReport) (clock : Option Duration)
      (sys : SyscallRecord) (ex : ExecveRecord) (s s' : OutStream),
      (dispatch_keepalive encKA encMsg clock s = Except.ok s' →
        ∃ a b, s'.written = s.written ++ [StreamOp.writeBytes a, StreamOp.writeBytes b])
      ∧ (dispatch_audit_event encPR encMsg sys ex s = Except.ok s' →
        ∃ a b, s'.written = s.written ++ [StreamOp.writeBytes a, StreamOp.writeBytes b])
      ∧ (∀ e, encKA (keepalive_message clock) = Except.error e →
        dispatch_keepalive encKA encMsg clock s = Except.error ⟨IoErrorKind.Interrupted, e⟩)
      ∧ (∀ e, encPR (build_program_run sys ex) = Except.error e →
        dispatch_audit_event encPR encMsg sys ex s =
          Except.error ⟨IoErrorKind.Interrupted, e⟩)
      ∧ (∀ kaBytes e, encKA (keepalive_message clock) = Except.ok kaBytes →
        encMsg ⟨REPORT_TYPE_KEEPALIVE, kaBytes⟩ = Except.error e →
        dispatch_keepalive encKA encMsg clock s = Except.error ⟨IoErrorKind.Interrupted, e⟩)
      ∧ (∀ prBytes e, encPR (build_program_run sys ex) = Except.ok prBytes →
        encMsg ⟨REPORT_TYPE_PROGRAMRUN, prBytes⟩ = Except.error e →
        dispatch_audit_event encPR encMsg sys ex s =
          Except.error ⟨IoErrorKind.Interrupted, e⟩)
      ∧ (s.failAfter = some 0 →
        ∀ r, dispatch_keepalive encKA encMsg clock s ≠ Except.ok r)
      ∧ (s.failAfter = some 0 →
        ∀ r, dispatch_audit_event encPR encMsg sys ex s ≠ Except.ok r) := by
  intro encKA encPR encMsg clock sys ex s s'
  refine ⟨?_, ?_, ?_, ?_, ?_, ?_, ?_, ?_⟩
  · intro h
    cases h1 : encKA (keepalive_message clock) with
    | error e => rw [dispatch_keepalive_enc1_err encKA encMsg clock s e h1] at h; simp at h
    | ok ka =>
      cases h2 : encMsg ⟨REPORT_TYPE_KEEPALIVE, ka⟩ with
      | error e =>
        rw [dispatch_keepalive_enc2_err encKA encMsg clock s ka e h1 h2] at h; simp at h
      | ok fm =>
        rw [dispatch_keepalive_frame encKA encMsg clock s ka fm h1 h2] at h
        exact ⟨_, _, write_frame_shape s s' fm h⟩
  · intro h
    cases h1 : encPR (build_program_run sys ex) with
    | error e =>
      rw [dispatch_audit_event_enc1_err encPR encMsg sys ex s e h1] at h; simp at h
    | ok pr =>
      cases h2 : encMsg ⟨REPORT_TYPE_PROGRAMRUN, pr⟩ with
      | error e =>
        rw [dispatch_audit_event_enc2_err encPR encMsg sys ex s pr e h1 h2] at h; simp at h
      | ok fm =>
        rw [dispatch_audit_event_frame encPR encMsg sys ex s pr fm h1 h2] at h
        exact ⟨_, _, write_frame_shape s s' fm h⟩
  · exact fun e h1 => dispatch_keepalive_enc1_err encKA encMsg clock s e h1
  · exact fun e h1 => dispatch_audit_event_enc1_err encPR encMsg sys ex s e h1
  · exact fun kaBytes e h1 h2 => dispatch_keepalive_enc2_err encKA encMsg clock s kaBytes e h1 h2
  · exact fun prBytes e h1 h2 =>
      dispatch_audit_event_enc2_err encPR encMsg sys ex s prBytes e h1 h2
  · intro hfa r h
    cases h1 : encKA (keepalive_message clock) with
    | error e => rw [dispatch_keepalive_enc1_err encKA encMsg clock s e h1] at h; simp at h
    | ok ka =>
      cases h2 : encMsg ⟨REPORT_TYPE_KEEPALIVE, ka⟩ with
      | error e =>
        rw [dispatch_keepalive_enc2_err encKA encMsg clock s ka e h1 h2] at h; simp at h
      | ok fm =>
        rw [dispatch_keepalive_frame encKA encMsg clock s ka fm h1 h2,
          write_frame_fail_now s fm hfa] at h
        simp at h
  · intro hfa r h
    cases h1 : encPR (build_program_run sys ex) with
    | error e =>
      rw [dispatch_audit_event_enc1_err encPR encMsg sys ex s e h1] at h; simp at h
    | ok pr =>
      cases h2 : encMsg ⟨REPORT_TYPE_PROGRAMRUN, pr⟩ with
      | error e =>
        rw [dispatch_audit_event_enc2_err encPR encMsg sys ex s pr e h1 h2] at h; simp at h
      | ok fm =>
        rw [dispatch_audit_event_frame encPR encMsg sys ex s pr fm h1 h2,
          write_frame_fail_now s fm hfa] at h
        simp at h

/-- C5 amended-claim witness: a failing payload serialization surfaces as
an Interrupted io::Error. -/
theorem dispatch_error_propagation_no_flush_witness :
    dispatch_keepalive (fun _ => Except.error "boom") (fun _ => Except.ok [])
        (some ⟨0, 0⟩) ⟨[], none⟩ =
      Except.error ⟨IoErrorKind.Interrupted, "boom"⟩ :=
  (dispatch_error_propagation_no_flush (fun _ => Except.error "boom")
    (fun _ => Except.ok []) (fun _ => Except.ok []) (some ⟨0, 0⟩)
    SyscallRecord.new ⟨0, 0, 0, 0, []⟩ ⟨[], none⟩ ⟨[], none⟩).2.2.1 "boom" rfl

/-- C6: extracting any of the five optional free-text keys with the
literal value "(null)" leaves the field absent rather than setting the
four-character string. -/
theorem null_sentinel_optional_absent :
    ∀ rec : SyscallRecord,
      (rec.tty = none → (syscall_extract_fields rec "tty" "(null)").tty = none)
      ∧ (rec.comm = none → (syscall_extract_fields rec "comm" "(null)").comm = none)
      ∧ (rec.exe = none → (syscall_extract_fields rec "exe" "(null)").exe = none)
      ∧ (rec.key = none → (syscall_extract_fields rec "key" "(null)").key = none)
      ∧ (rec.subj = none → (syscall_extract_fields rec "subj" "(null)").subj = none) := by
  intro rec
  refine ⟨?_, ?_, ?_, ?_, ?_⟩ <;> intro h <;> rw [extract_null_eq] <;> exact h

/-- C6 witness: key=(null) on a fresh record leaves `key` absent. -/
theorem null_sentinel_optional_absent_witness :
    (syscall_extract_fields SyscallRecord.new "key" "(null)").key = none :=
  (null_sentinel_optional_absent SyscallRecord.new).2.2.2.1 rfl

/-- C7: extracting a recognized numeric key whose value is not a valid
base-10 signed 32-bit integer sets that field to -1 (the "(null)" sentinel
is the one documented exception, where the field keeps its prior value —
which on a freshly initialized record is already -1); extraction is total,
so no error is ever raised. -/
theorem numeric_malformed_defaults_to_minus_one :
    ∀ (rec : SyscallRecord) (k v : String),
      k ∈ numericKeys → i32_from_str_radix_10 v = none →
      (v ≠ "(null)" → numericField (syscall_extract_fields rec k v) k = -1)
      ∧ numericField (syscall_extract_fields SyscallRecord.new k v) k = -1 :=
  fun rec k v hk hv =>
    ⟨fun hnull => extract_numeric_invalid rec k v hk hv hnull,
     extract_numeric_invalid_new k v hk hv⟩

/-- C7 witness: pid with a non-numeric value becomes -1, also when the
prior value differed. -/
theorem numeric_malformed_defaults_to_minus_one_witness :
    numericField (syscall_extract_fields
      { SyscallRecord.new with pid := 42 } "pid" "not-a-number") "pid" = -1
    ∧ numericField (syscall_extract_fields SyscallRecord.new "exit" "0x7f") "exit" = -1 :=
  ⟨(numeric_malformed_defaults_to_minus_one { SyscallRecord.new with pid := 42 }
      "pid" "not-a-number" (by decide) (by decide)).1 (by decide),
   (numeric_malformed_defaults_to_minus_one SyscallRecord.new
      "exit" "0x7f" (by decide) (by decide)).1 (by decide)⟩

/-- C8: a key outside the recognized SYSCALL field names leaves the record
completely unchanged and raises no error; in particular foo=bar alongside
pid=42 still yields pid = 42. -/
theorem unknown_key_is_ignored :
    (∀ (rec : SyscallRecord) (k v : String), k ∉ recognizedKeys →
      syscall_extract_fields rec k v = rec)
    ∧ (syscall_extract_fields
        (syscall_extract_fields SyscallRecord.new "pid" "42") "foo" "bar").pid = 42 :=
  ⟨fun rec k v hk => extract_unknown_key rec k v hk, by decide⟩

/-- C8 witness: foo=bar is a no-op on the fresh record. -/
theorem unknown_key_is_ignored_witness :
    syscall_extract_fields SyscallRecord.new "foo" "bar" = SyscallRecord.new :=
  unknown_key_is_ignored.1 SyscallRecord.new "foo" "bar" (by decide)

/-- C9: a failed wall-clock read (time before the epoch) makes
dispatch_keepalive behave exactly as if the clock had returned a zero
duration — the keepalive timestamp is zero, the message is still built,
framed and written, and the result is success; the clock failure is never
propagated. -/
theorem keepalive_clock_fallback :
    ∀ (encKA : Encoder KeepAlive) (encMsg : Encoder SnitchReport) (s : OutStream),
      dispatch_keepalive encKA encMsg none s =
        dispatch_keepalive encKA encMsg (some ⟨0, 0⟩) s
      ∧ keepalive_message none = ⟨⟨0, 0⟩⟩
      ∧ (∀ (kaBytes fm : List Nat), s.failAfter = none →
          encKA ⟨⟨0, 0⟩⟩ = Except.ok kaBytes →
          encMsg ⟨REPORT_TYPE_KEEPALIVE, kaBytes⟩ = Except.ok fm →
          dispatch_keepalive encKA encMsg none s =
            Except.ok ⟨s.written ++ [StreamOp.writeBytes (u32_be (fm.length % 2 ^ 32)),
              StreamOp.writeBytes fm], none⟩) := by
  intro encKA encMsg s
  have hkm : keepalive_message none = (⟨⟨0, 0⟩⟩ : KeepAlive) := rfl
  refine ⟨rfl, hkm, ?_⟩
  intro kaBytes fm hs h1 h2
  exact dispatch_keepalive_ok encKA encMsg none s kaBytes fm hs (by rw [hkm]; exact h1) h2

/-- C9 witness: with the clock unavailable the keepalive is still framed
and written, and the dispatcher returns success. -/
theorem keepalive_clock_fallback_witness :
    dispatch_keepalive (fun _ => Except.ok [5]) (fun _ => Except.ok [7, 7, 7]) none
        ⟨[], none⟩ =
      Except.ok ⟨[StreamOp.writeBytes (u32_be (3 % 2 ^ 32)), StreamOp.writeBytes [7, 7, 7]],
        none⟩ :=
  (keepalive_clock_fallback (fun _ => Except.ok [5]) (fun _ => Except.ok [7, 7, 7])
    ⟨[], none⟩).2.2 [5] [7, 7, 7] rfl rfl rfl

/-- C10: a value of exactly "(null)" returns the record unchanged for
every key — the sentinel check precedes all key matching — so a numeric
field keeps its prior value instead of receiving the -1 default. -/
theorem null_value_leaves_record_unchanged :
    (∀ (rec : SyscallRecord) (k : String), syscall_extract_fields rec k "(null)" = rec)
    ∧ (syscall_extract_fields { SyscallRecord.new with pid := 42 } "pid" "(null)").pid = 42 :=
  ⟨fun rec k => extract_null_eq rec k, by decide⟩

end Snitch
